import Mathlib

/-!
# Verification of the coral-timelapse reconciliation script

Shallow embedding of `timelapse_creator.py`: the local/remote listing
snapshots, the synchronization (download + eviction) pass, the video
assembly result logic, and the upload retry loop.  I/O is modelled by
passing listings and outcome sequences explicitly; in theorems about
"successful" runs every individual download/delete succeeds, mirroring
the per-item try/except blocks of the source.
-/

namespace Timelapse

/-- A file in the local cache directory, as seen by `os.listdir` + `os.stat`
(`get_local_storage_info_by_domain_camera`, lines 424-435): name, size in
bytes, and modification time (`st_mtime`, modelled as a natural number). -/
structure LocalFile where
  name : String
  size : Nat
  modified : Nat
deriving DecidableEq, Repr

/-- An object in the Google Drive image folder as returned by
`service.files().list` (lines 370-386 and 548-556): id, name, mimeType,
trashed flag, creation/modification timestamps and size. -/
structure RemoteObject where
  oid : Nat
  name : String
  mimeType : String
  trashed : Bool
  createdTime : Nat
  modifiedTime : Nat
  size : Nat
deriving DecidableEq, Repr

/-- The image filename extensions accepted by the local listings
(line 304 and line 420). -/
def image_extensions : List String :=
  [".jpg", ".jpeg", ".png", ".bmp", ".tiff", ".tif"]

/-- Character-level lowercase, modelling Python's `str.lower()` on ASCII
file names. -/
def lower_str (s : String) : String := String.mk (s.data.map Char.toLower)

/-- Tests that `s` ends with the character sequence `suf` (Python's `str.endswith`). -/
def ends_with_chars (s suf : List Char) : Bool :=
  (s.reverse.take suf.length) == suf.reverse

/-- Models `file.lower().endswith(image_extensions)` (line 425). -/
def isImageFile (name : String) : Bool :=
  image_extensions.any (fun e => ends_with_chars (lower_str name).data e.data)

/-- Models `os.path.splitext(name)[0]`: the name with its last extension removed;
leading dots of the name are not treated as an extension separator
(used for base-name matching in `identify_new_images`, lines 457-461). -/
def base_name (s : String) : String :=
  let lead := s.data.takeWhile (fun c => c = '.')
  let rest := s.data.dropWhile (fun c => c = '.')
  if rest.contains '.' then
    String.mk (lead ++ ((rest.reverse.dropWhile (fun c => c ≠ '.')).drop 1).reverse)
  else s

/-- The ordering key of the local snapshot sort
(`local_files.sort(key=lambda x: x['modified'])`, line 441). -/
def mtime_le (a b : LocalFile) : Prop := a.modified ≤ b.modified

instance : DecidableRel mtime_le := fun a b => Nat.decLe a.modified b.modified

instance : IsTotal LocalFile mtime_le := ⟨fun a b => Nat.le_total a.modified b.modified⟩

instance : IsTrans LocalFile mtime_le := ⟨fun _ _ _ => Nat.le_trans⟩

/-- The `{count, size, files}` dictionary built by
`get_local_storage_info_by_domain_camera` (lines 444-448). -/
structure LocalStorageInfo where
  count : Nat
  size : Nat
  files : List LocalFile
deriving DecidableEq, Repr

/-- Model of `get_local_storage_info_by_domain_camera` (lines 411-452) on a directory
listing: keep files with an image extension, record count and total size,
and sort by modification time, oldest first.  Python's `list.sort` is
stable; `List.insertionSort` is the stable sort used to model it. -/
def get_local_storage_info (listing : List LocalFile) : LocalStorageInfo :=
  let local_files := listing.filter (fun f => isImageFile f.name)
  { count := local_files.length
    size := (local_files.map (fun f => f.size)).sum
    files := List.insertionSort mtime_le local_files }

/-- Model of `cleanup_old_images` (lines 512-539): if the snapshot count exceeds
`max_images`, remove the first `count - max_images` files of the snapshot's
mtime-sorted list.  Returns `(removed_count, removed files)`; every
`os.remove` succeeds in this model. -/
def cleanup_old_images (info : LocalStorageInfo) (max_images : Nat) :
    Nat × List LocalFile :=
  if info.count ≤ max_images then (0, [])
  else
    let images_to_remove := info.count - max_images
    let victims := info.files.take images_to_remove
    (victims.length, victims)

/-! ## Basic facts about the local snapshot -/

theorem getInfo_files_perm (listing : List LocalFile) :
    List.Perm (get_local_storage_info listing).files
      (listing.filter (fun f => isImageFile f.name)) :=
  List.perm_insertionSort mtime_le _

theorem getInfo_files_length (listing : List LocalFile) :
    (get_local_storage_info listing).files.length =
      (get_local_storage_info listing).count :=
  (getInfo_files_perm listing).length_eq

theorem getInfo_files_sorted (listing : List LocalFile) :
    (get_local_storage_info listing).files.Pairwise mtime_le :=
  List.sorted_insertionSort mtime_le _

/-- C1, main theorem.  If the snapshot holds `cap + k` images with `k > 0`,
the eviction step removes exactly `k` entries; they form a prefix of the
snapshot's stable mtime-sort (so the step is a deterministic function of
the snapshot, ties resolved by the stable secondary order of the listing),
every removed entry's mtime is at most every surviving entry's mtime, and
removed ++ kept is exactly the snapshot. -/
theorem cleanup_old_images_evicts_oldest (listing : List LocalFile)
    (cap k : Nat) (hk : 0 < k)
    (hcount : (get_local_storage_info listing).count = cap + k) :
    (cleanup_old_images (get_local_storage_info listing) cap).1 = k ∧
    (cleanup_old_images (get_local_storage_info listing) cap).2.length = k ∧
    (cleanup_old_images (get_local_storage_info listing) cap).2 ++
        (get_local_storage_info listing).files.drop k =
      (get_local_storage_info listing).files ∧
    (∀ v ∈ (cleanup_old_images (get_local_storage_info listing) cap).2,
      ∀ s ∈ (get_local_storage_info listing).files.drop k,
        v.modified ≤ s.modified) := by
  set info := get_local_storage_info listing with hinfo
  have hnotle : ¬ info.count ≤ cap := by omega
  have hrem : info.count - cap = k := by omega
  have hlen : info.files.length = info.count := getInfo_files_length listing
  have hvict : (cleanup_old_images info cap).2 = info.files.take k := by
    simp only [cleanup_old_images, if_neg hnotle, hrem]
  have htklen : (info.files.take k).length = k := by
    rw [List.length_take]
    omega
  refine ⟨?_, ?_, ?_, ?_⟩
  · simp only [cleanup_old_images, if_neg hnotle, hrem]
    exact htklen
  · rw [hvict]; exact htklen
  · rw [hvict]; exact List.take_append_drop k info.files
  · intro v hv s hs
    rw [hvict] at hv
    have hsorted : info.files.Pairwise mtime_le := getInfo_files_sorted listing
    have := (List.pairwise_append.mp
      (by rw [List.take_append_drop k info.files]; exact hsorted)).2.2
    exact this v hv s hs

/-- Witness for C1 at a concrete snapshot: four files, cap 2, so `k = 2`. -/
def c1_listing : List LocalFile :=
  [⟨"d.jpg", 10, 40⟩, ⟨"a.jpg", 10, 30⟩, ⟨"b.jpg", 10, 10⟩, ⟨"c.jpg", 10, 30⟩]

theorem cleanup_old_images_evicts_oldest_witness :
    0 < 2 ∧ (get_local_storage_info c1_listing).count = 2 + 2 ∧
    ((cleanup_old_images (get_local_storage_info c1_listing) 2).1 = 2 ∧
    (cleanup_old_images (get_local_storage_info c1_listing) 2).2.length = 2 ∧
    (cleanup_old_images (get_local_storage_info c1_listing) 2).2 ++
        (get_local_storage_info c1_listing).files.drop 2 =
      (get_local_storage_info c1_listing).files ∧
    (∀ v ∈ (cleanup_old_images (get_local_storage_info c1_listing) 2).2,
      ∀ s ∈ (get_local_storage_info c1_listing).files.drop 2,
        v.modified ≤ s.modified)) :=
  ⟨by decide, by decide,
    cleanup_old_images_evicts_oldest c1_listing 2 2 (by decide) (by decide)⟩

/-! ## Remote listing and pagination -/

/-- The Drive query of lines 367 and 547: the object is an image
(`mimeType='image/jpeg' or 'image/png' or 'image/jpg'`) and not trashed. -/
def drive_image_query (o : RemoteObject) : Bool :=
  (o.mimeType == "image/jpeg" || o.mimeType == "image/png" ||
    o.mimeType == "image/jpg") && !o.trashed

/-- The full filtered content of the remote image folder: what a complete
listing with the query of line 367/547 enumerates. -/
def listRemote (store : List RemoteObject) : List RemoteObject :=
  store.filter drive_image_query

/-- The constant `max_pages = 50` — the pagination safety limit of line 357. -/
def max_pages : Nat := 50

/-- The pagination loop of `get_google_drive_images` (lines 359-399).
`pages` is the sequence of pages the server would serve (`none` models a
page fetch that raises, which `break`s the loop, line 399); the loop also
stops after `fuel` pages (the `page_count < max_pages` guard) or when the
server reports no further page token. -/
def gd_fetch_pages : Nat → List (Option (List RemoteObject)) → List RemoteObject
  | 0, _ => []
  | _ + 1, [] => []
  | _ + 1, Option.none :: _ => []
  | n + 1, Option.some p :: rest => p ++ gd_fetch_pages n rest

/-- Model of `get_google_drive_images` (lines 349-409): accumulate up to
`max_pages` pages; any page error or the page limit truncates the result
(the outer exception handler returns the empty list, line 409). -/
def get_google_drive_images (pages : List (Option (List RemoteObject))) :
    List RemoteObject :=
  gd_fetch_pages max_pages pages

theorem gd_single (l : List RemoteObject) :
    get_google_drive_images [Option.some l] = l := by
  simp [get_google_drive_images, gd_fetch_pages, max_pages]

/-! ## Download step -/

/-- Model of `identify_new_images` (lines 454-470): remote objects whose base name
is absent from the snapshot's local base names, in listing order. -/
def identify_new_images (gd : List RemoteObject) (info : LocalStorageInfo) :
    List RemoteObject :=
  gd.filter (fun o =>
    !(info.files.any (fun f => base_name f.name == base_name o.name)))

/-- The file produced by downloading object `o` at time `t`
(lines 487-497: written under the object's full name). -/
def downloaded_file (o : RemoteObject) (t : Nat) : LocalFile :=
  ⟨o.name, o.size, t⟩

/-- A single download: `open(file_path, 'wb')` truncates an existing file
of the same name or creates a new one. -/
def download_write (store : List LocalFile) (o : RemoteObject) (t : Nat) :
    List LocalFile :=
  if store.any (fun f => f.name == o.name) then
    store.map (fun f => if f.name == o.name then downloaded_file o t else f)
  else store ++ [downloaded_file o t]

/-- Model of `download_new_images` (lines 472-510) acting on the cache directory:
each download in the batch succeeds in this model, so the returned count
of the source equals the batch length. -/
def download_new_images (store : List LocalFile) (objs : List RemoteObject)
    (t : Nat) : List LocalFile :=
  objs.foldl (fun s o => download_write s o t) store

/-! ## Remote overflow cleanup -/

/-- Result of `cleanup_google_drive_overflow`: the reported removed count,
the deleted objects, and the remote store after the deletions. -/
structure GdCleanupResult where
  removed : Nat
  victims : List RemoteObject
  store : List RemoteObject
deriving DecidableEq, Repr

/-- The ordering used by the fresh listing of line 551
(`orderBy="modifiedTime asc"`). -/
def gd_mtime_le (a b : RemoteObject) : Prop := a.modifiedTime ≤ b.modifiedTime

instance : DecidableRel gd_mtime_le := fun a b => Nat.decLe a.modifiedTime b.modifiedTime

instance : IsTotal RemoteObject gd_mtime_le :=
  ⟨fun a b => Nat.le_total a.modifiedTime b.modifiedTime⟩

instance : IsTrans RemoteObject gd_mtime_le := ⟨fun _ _ _ => Nat.le_trans⟩

/-- The fresh, `modifiedTime asc`-ordered listing of line 548-556 that
`cleanup_google_drive_overflow` performs (server ordering modelled as a
stable sort on the folder's matching content). -/
def gd_all_images (store : List RemoteObject) : List RemoteObject :=
  List.insertionSort gd_mtime_le (listRemote store)

/-- The slice `all_images[:images_to_remove]` of line 569: the oldest
`total - max_images` entries OF THE FRESH LISTING. -/
def gd_victims (store : List RemoteObject) (max_images : Nat) :
    List RemoteObject :=
  (gd_all_images store).take ((gd_all_images store).length - max_images)

/-- Model of `cleanup_google_drive_overflow` (lines 541-586): it performs a FRESH
listing of the folder (line 548) ordered by modification time ascending,
and if that listing exceeds `max_images` deletes its first
`total - max_images` entries by id.  Every delete succeeds in this model. -/
def cleanup_google_drive_overflow (store : List RemoteObject)
    (max_images : Nat) : GdCleanupResult :=
  if (gd_all_images store).length ≤ max_images then ⟨0, [], store⟩
  else
    ⟨(gd_victims store max_images).length, gd_victims store max_images,
      store.filter (fun o =>
        !((gd_victims store max_images).any (fun v => v.oid == o.oid)))⟩

/-! ## The synchronization pass -/

/-- The constant `MAX_IMAGES_PER_VIDEO` (line 51), the processing cap. -/
def MAX_IMAGES_PER_VIDEO : Nat := 1000

/-- The constant `MAX_IMAGES_DOWNLOAD` (line 54), the download cap. -/
def MAX_IMAGES_DOWNLOAD : Nat := 21840

/-- Step 3 of `synchronize_images` (lines 671-705): number of images
selected for download.  `images_needed_for_processing` is computed in
`ℤ` because Python's subtraction can go negative (line 675). -/
def downloads_selected (P : Nat) (new_images : List RemoteObject)
    (initial_local_count : Nat) : Nat :=
  if new_images.isEmpty then 0
  else if 0 < (P : Int) - (initial_local_count : Int) then
    min new_images.length ((P : Int) - (initial_local_count : Int)).toNat
  else 0

/-- The result of one `synchronize_images` run: the download count, the
two eviction target lists, the post-run stores, and the returned value
(`None` never arises in this exception-free model; the early return of
line 665 yields the pre-sync snapshot). -/
structure SyncResult where
  downloads : Nat
  localEvicted : List LocalFile
  remoteEvicted : List RemoteObject
  localAfter : List LocalFile
  remoteAfter : List RemoteObject
  returned : Option LocalStorageInfo
deriving DecidableEq, Repr

/-- Step 2 of `synchronize_images` (line 669). -/
def sync_new (gd : List RemoteObject) (L : List LocalFile) : List RemoteObject :=
  identify_new_images gd (get_local_storage_info L)

/-- The local variable `downloaded_count` of `synchronize_images` (lines 672-705). -/
def sync_downloads (P : Nat) (gd : List RemoteObject) (L : List LocalFile) : Nat :=
  downloads_selected P (sync_new gd L) (get_local_storage_info L).count

/-- Step 5 of `synchronize_images` (lines 719-734): local eviction targets.
The trigger uses `total_after_download = initial_local_count +
downloaded_count` (line 709) against the download cap, and the victims are
computed by `cleanup_old_images` FROM THE SNAPSHOT taken in step 1
(line 728 passes `local_storage_info`). -/
def sync_local_victims (P D : Nat) (gd : List RemoteObject)
    (L : List LocalFile) : List LocalFile :=
  if D < (get_local_storage_info L).count + sync_downloads P gd L then
    (cleanup_old_images (get_local_storage_info L) D).2
  else []

/-- The cache directory after the downloads of step 3 and the local
eviction of step 5. -/
def sync_local_after (P D : Nat) (gd : List RemoteObject) (L : List LocalFile)
    (t : Nat) : List LocalFile :=
  (download_new_images L ((sync_new gd L).take (sync_downloads P gd L)) t).filter
    (fun f => !((sync_local_victims P D gd L).any (fun v => v.name == f.name)))

/-- Step 6 of `synchronize_images` (lines 736-756): remote cleanup runs
only when the SNAPSHOT count `initial_gd_count` (line 738) exceeds the
download cap, but then delegates to `cleanup_google_drive_overflow`,
which re-lists the folder (`rc` is the folder content at that later
moment). -/
def sync_gd_cleanup (D : Nat) (gd rc : List RemoteObject) : GdCleanupResult :=
  if D < gd.length then cleanup_google_drive_overflow rc D
  else ⟨0, [], rc⟩

/-- Model of `synchronize_images` (lines 640-780), parameterized by the two caps.
`gd` is the step-1 remote snapshot, `L` the step-1 cache directory
listing, `rc` the remote folder content at the moment step 6 re-lists it,
and `t` the modification time stamped on downloaded files.  If the
snapshot is empty the run returns the pre-sync snapshot and does nothing
(lines 663-665); otherwise it returns the re-listed cache (line 775). -/
def synchronize_images_core (P D : Nat) (gd : List RemoteObject)
    (L : List LocalFile) (rc : List RemoteObject) (t : Nat) : SyncResult :=
  if gd.isEmpty then
    ⟨0, [], [], L, rc, some (get_local_storage_info L)⟩
  else
    ⟨sync_downloads P gd L,
     sync_local_victims P D gd L,
     (sync_gd_cleanup D gd rc).victims,
     sync_local_after P D gd L t,
     (sync_gd_cleanup D gd rc).store,
     some (get_local_storage_info (sync_local_after P D gd L t))⟩

/-- The entry point `synchronize_images` with the caps of lines 51/54, as called by
`main` (line 1143). -/
def synchronize_images (gd : List RemoteObject) (L : List LocalFile)
    (rc : List RemoteObject) (t : Nat) : SyncResult :=
  synchronize_images_core MAX_IMAGES_PER_VIDEO MAX_IMAGES_DOWNLOAD gd L rc t

/-- One quiescent reconciliation run: nothing changes remotely between the
step-1 snapshot listing (which fits in one page) and the step-6 re-listing. -/
def runSync (P D : Nat) (L : List LocalFile) (R : List RemoteObject)
    (t : Nat) : SyncResult :=
  synchronize_images_core P D (get_google_drive_images [Option.some (listRemote R)])
    L R t

/-! ## C2: the download bound -/

theorem downloads_selected_le (P : Nat) (new_images : List RemoteObject)
    (n : Nat) : downloads_selected P new_images n ≤ P - n := by
  unfold downloads_selected
  split
  · exact Nat.zero_le _
  · split
    · have h : ((P : Int) - (n : Int)).toNat = P - n := by omega
      rw [h]
      exact Nat.min_le_right _ _
    · exact Nat.zero_le _

theorem downloads_selected_zero_of_ge (P : Nat) (new_images : List RemoteObject)
    (n : Nat) (h : P ≤ n) : downloads_selected P new_images n = 0 := by
  have := downloads_selected_le P new_images n
  omega

/-- C2, main theorem.  In any run, the number of images selected for
download is at most `max(0, processingCap - initialLocalCount)` (which is
Nat subtraction `P - count`); in particular a full cache means zero
downloads even when new remote objects exist. -/
theorem sync_download_bound (P D : Nat) (gd : List RemoteObject)
    (L : List LocalFile) (rc : List RemoteObject) (t : Nat) :
    (synchronize_images_core P D gd L rc t).downloads ≤
      P - (get_local_storage_info L).count ∧
    (P ≤ (get_local_storage_info L).count →
      (synchronize_images_core P D gd L rc t).downloads = 0) := by
  unfold synchronize_images_core
  split
  · exact ⟨Nat.zero_le _, fun _ => rfl⟩
  · refine ⟨downloads_selected_le P _ _, fun h => ?_⟩
    exact downloads_selected_zero_of_ge P _ _ h

/-- Witness for C2: a full cache (2 files, `P = 2`) with a brand-new
remote object still downloads nothing. -/
def c2_disk : List LocalFile := [⟨"a.jpg", 1, 1⟩, ⟨"b.jpg", 1, 2⟩]

def c2_remote : List RemoteObject := [⟨7, "c.jpg", "image/jpeg", false, 3, 3, 1⟩]

theorem sync_download_bound_witness :
    2 ≤ (get_local_storage_info c2_disk).count ∧
      (synchronize_images_core 2 5 c2_remote c2_disk c2_remote 9).downloads = 0 :=
  ⟨by decide, (sync_download_bound 2 5 c2_remote c2_disk c2_remote 9).2 (by decide)⟩

/-! ## C10: an empty remote snapshot is a no-op -/

/-- C10, main theorem.  Whenever the remote listing comes back empty —
including every silent listing failure, which `get_google_drive_images`
turns into `[]` — the run downloads nothing, evicts nothing on either
side, leaves both stores untouched, and returns the pre-sync local
snapshot, even if the local count exceeds the download cap. -/
theorem empty_remote_snapshot_noop (P D : Nat)
    (pages : List (Option (List RemoteObject))) (L : List LocalFile)
    (rc : List RemoteObject) (t : Nat)
    (h : get_google_drive_images pages = []) :
    (synchronize_images_core P D (get_google_drive_images pages) L rc t).downloads = 0 ∧
    (synchronize_images_core P D (get_google_drive_images pages) L rc t).localEvicted = [] ∧
    (synchronize_images_core P D (get_google_drive_images pages) L rc t).remoteEvicted = [] ∧
    (synchronize_images_core P D (get_google_drive_images pages) L rc t).localAfter = L ∧
    (synchronize_images_core P D (get_google_drive_images pages) L rc t).remoteAfter = rc ∧
    (synchronize_images_core P D (get_google_drive_images pages) L rc t).returned =
      some (get_local_storage_info L) := by
  rw [h]
  exact ⟨rfl, rfl, rfl, rfl, rfl, rfl⟩

/-- Witness for C10: the listing fails on its first page (`none`), the
local cache holds 3 images while `downloadCap = 1`, and still no
eviction happens. -/
def c10_disk : List LocalFile :=
  [⟨"a.jpg", 1, 1⟩, ⟨"b.jpg", 1, 2⟩, ⟨"c.jpg", 1, 3⟩]

theorem empty_remote_snapshot_noop_witness :
    get_google_drive_images [Option.none] = [] ∧
    1 < (get_local_storage_info c10_disk).count ∧
    (synchronize_images_core 1 1 (get_google_drive_images [Option.none])
        c10_disk [] 5).localEvicted = [] ∧
    (synchronize_images_core 1 1 (get_google_drive_images [Option.none])
        c10_disk [] 5).localAfter = c10_disk :=
  ⟨rfl, by decide,
    (empty_remote_snapshot_noop 1 1 [Option.none] c10_disk [] 5 rfl).2.1,
    (empty_remote_snapshot_noop 1 1 [Option.none] c10_disk [] 5 rfl).2.2.2.1⟩

/-! ## C5: what a listing failure actually propagates -/

/-- The caller's guard of lines 1145-1147: video creation is skipped
exactly when `synchronize_images` returned `None`. -/
def main_skips_video (sync_result : Option LocalStorageInfo) : Bool :=
  sync_result.isNone

def c5_disk : List LocalFile := [⟨"a.jpg", 5, 1⟩]

/-- C5, counterexample.  A failed remote listing yields `[]`, not an
error; `synchronize_images` then returns the (non-null) pre-sync local
snapshot, so the caller's `sync_result is None` guard does not fire and
video creation proceeds — the claimed null propagation and skip do not
happen. -/
theorem listing_failure_not_null_cex :
    get_google_drive_images [Option.none] = [] ∧
    (synchronize_images (get_google_drive_images [Option.none])
        c5_disk [] 0).returned ≠ none ∧
    main_skips_video
      (synchronize_images (get_google_drive_images [Option.none])
        c5_disk [] 0).returned = false := by
  refine ⟨rfl, ?_, rfl⟩
  intro h
  simp [synchronize_images, synchronize_images_core, get_google_drive_images,
    gd_fetch_pages, max_pages] at h

/-- C5, amended.  When the remote listing fails (or is empty), the
reconciliation is skipped: the run returns the pre-sync snapshot as a
non-null value, performs no downloads, and the caller therefore does NOT
skip video creation; only an exception escaping `synchronize_images`
(line 780) produces the `None` that makes the caller skip. -/
theorem listing_failure_returns_snapshot
    (pages : List (Option (List RemoteObject))) (L : List LocalFile)
    (rc : List RemoteObject) (t : Nat)
    (h : get_google_drive_images pages = []) :
    (synchronize_images (get_google_drive_images pages) L rc t).returned =
      some (get_local_storage_info L) ∧
    (synchronize_images (get_google_drive_images pages) L rc t).downloads = 0 ∧
    main_skips_video
      (synchronize_images (get_google_drive_images pages) L rc t).returned = false := by
  rw [h]
  exact ⟨rfl, rfl, rfl⟩

theorem listing_failure_returns_snapshot_witness :
    get_google_drive_images [Option.none] = [] ∧
    (synchronize_images (get_google_drive_images [Option.none])
        c10_disk [] 3).returned = some (get_local_storage_info c10_disk) :=
  ⟨rfl, (listing_failure_returns_snapshot [Option.none] c10_disk [] 3 rfl).1⟩

/-! ## C6: pagination and full enumeration -/

def c6_obj (i : Nat) : RemoteObject := ⟨i, "a.jpg", "image/jpeg", false, i, i, 1⟩

/-- 51 server pages, each holding one matching object. -/
def c6_pages : List (Option (List RemoteObject)) :=
  (List.range 51).map (fun i => Option.some [c6_obj i])

/-- C6, counterexample.  With 51 pages the `max_pages = 50` safety limit
(line 357) truncates the enumeration: the object on page 51 is in the
folder's matching content but absent from the snapshot. -/
theorem pagination_truncation_cex :
    c6_pages.length = 51 ∧
    c6_obj 50 ∈ (c6_pages.filterMap id).flatten ∧
    c6_obj 50 ∉ get_google_drive_images c6_pages := by
  refine ⟨rfl, ?_, ?_⟩ <;> decide

theorem gd_fetch_pages_all (pages : List (Option (List RemoteObject)))
    (fuel : Nat) (hlen : pages.length ≤ fuel)
    (hok : ∀ p ∈ pages, p.isSome) :
    gd_fetch_pages fuel pages = (pages.filterMap id).flatten := by
  induction pages generalizing fuel with
  | nil => cases fuel <;> rfl
  | cons p rest ih =>
    cases fuel with
    | zero => simp at hlen
    | succ n =>
      cases p with
      | none =>
        have := hok none (by simp)
        simp at this
      | some l =>
        have hrest : ∀ q ∈ rest, q.isSome := fun q hq => hok q (by simp [hq])
        have hlen' : rest.length ≤ n := by
          simp only [List.length_cons] at hlen
          omega
        simp [gd_fetch_pages, List.filterMap_cons, ih n hlen' hrest]

/-- C6, amended.  The snapshot is a full enumeration of the folder's
matching objects whenever every page fetch succeeds and the listing
needs at most `max_pages = 50` pages; beyond that limit (or on a page
error) the enumeration is truncated. -/
theorem full_enumeration_within_page_limit
    (pages : List (Option (List RemoteObject)))
    (hlen : pages.length ≤ max_pages)
    (hok : ∀ p ∈ pages, p.isSome) :
    get_google_drive_images pages = (pages.filterMap id).flatten :=
  gd_fetch_pages_all pages max_pages hlen hok

theorem full_enumeration_within_page_limit_witness :
    ([Option.some [c6_obj 0], Option.some [c6_obj 1]] :
        List (Option (List RemoteObject))).length ≤ max_pages ∧
    get_google_drive_images [Option.some [c6_obj 0], Option.some [c6_obj 1]] =
      [c6_obj 0, c6_obj 1] :=
  ⟨by decide,
    (full_enumeration_within_page_limit
      [Option.some [c6_obj 0], Option.some [c6_obj 1]]
      (by decide) (by decide)).trans (by decide)⟩

/-! ## C3: eviction targets, snapshot vs fresh listing -/

def c3_o1 : RemoteObject := ⟨1, "a.jpg", "image/jpeg", false, 10, 10, 1⟩

def c3_o2 : RemoteObject := ⟨2, "b.jpg", "image/jpeg", false, 20, 20, 1⟩

def c3_o3 : RemoteObject := ⟨3, "c.jpg", "image/jpeg", false, 1, 1, 1⟩

/-- C3, counterexample.  Snapshot = `[o1, o2]`, caps `P = D = 1`; while
the run proceeds a third object `o3` (with the oldest timestamp) lands
in the folder before step 6 re-lists it.  The remote eviction then
deletes `[o3, o1]` — computed from the fresh listing — instead of the
snapshot-derived plan `[o1]`; it even deletes an object that is not in
the snapshot at all, so eviction targets ARE recomputed mid-operation. -/
theorem remote_eviction_uses_fresh_listing_cex :
    (synchronize_images_core 1 1 [c3_o1, c3_o2] [⟨"a.jpg", 1, 5⟩]
        [c3_o3, c3_o1, c3_o2] 99).remoteEvicted = [c3_o3, c3_o1] ∧
    c3_o3 ∉ [c3_o1, c3_o2] ∧
    (synchronize_images_core 1 1 [c3_o1, c3_o2] [⟨"a.jpg", 1, 5⟩]
        [c3_o3, c3_o1, c3_o2] 99).remoteEvicted ≠ [c3_o1] := by
  refine ⟨?_, ?_, ?_⟩ <;> decide

/-- C3, amended.  The LOCAL eviction targets are computed from the fixed
pre-mutation snapshot only (they do not depend on the later remote state,
and they are a prefix of the snapshot's sorted file list); on the REMOTE
side only the decision to evict uses the snapshot count — when it fires,
both the number and the identity of the deleted objects come from the
fresh listing taken inside `cleanup_google_drive_overflow`. -/
theorem eviction_snapshot_amended (P D : Nat) (gd : List RemoteObject)
    (L : List LocalFile) (rc rc' : List RemoteObject) (t t' : Nat) :
    (synchronize_images_core P D gd L rc t).localEvicted =
      (synchronize_images_core P D gd L rc' t').localEvicted ∧
    (∃ rest, (synchronize_images_core P D gd L rc t).localEvicted ++ rest =
      (get_local_storage_info L).files) ∧
    (gd.length ≤ D →
      (synchronize_images_core P D gd L rc t).remoteEvicted = []) ∧
    (D < gd.length →
      (synchronize_images_core P D gd L rc t).remoteEvicted =
        (cleanup_google_drive_overflow rc D).victims) := by
  refine ⟨?_, ?_, ?_, ?_⟩
  · cases h : gd.isEmpty <;> simp [synchronize_images_core, h]
  · cases h : gd.isEmpty with
    | true =>
      exact ⟨(get_local_storage_info L).files, by simp [synchronize_images_core, h]⟩
    | false =>
      simp only [synchronize_images_core, h, Bool.false_eq_true, if_false]
      unfold sync_local_victims
      split
      · unfold cleanup_old_images
        split
        · exact ⟨(get_local_storage_info L).files, by simp⟩
        · exact ⟨(get_local_storage_info L).files.drop
            ((get_local_storage_info L).count - D), List.take_append_drop _ _⟩
      · exact ⟨(get_local_storage_info L).files, by simp⟩
  · intro hle
    have hne : ¬ D < gd.length := by omega
    cases h : gd.isEmpty <;>
      simp [synchronize_images_core, h, sync_gd_cleanup, if_neg hne]
  · intro hlt
    have hgd : gd.isEmpty = false := by
      cases gd with
      | nil => simp at hlt
      | cons a l => rfl
    simp [synchronize_images_core, hgd, sync_gd_cleanup, if_pos hlt]

def c3w_rc : List RemoteObject := [c3_o2, c3_o3]

theorem eviction_snapshot_amended_witness :
    (1 : Nat) < ([c3_o1, c3_o2] : List RemoteObject).length ∧
    (synchronize_images_core 3 1 [c3_o1, c3_o2] [] c3w_rc 7).remoteEvicted =
      (cleanup_google_drive_overflow c3w_rc 1).victims :=
  ⟨by decide,
    (eviction_snapshot_amended 3 1 [c3_o1, c3_o2] [] c3w_rc c3w_rc 7 7).2.2.2
      (by decide)⟩

/-! ## C7: video assembly result -/

/-- The observable outcome of one FFmpeg invocation (lines 907-930):
exit status, and whether/how large the output file is afterwards. -/
structure EncoderOutcome where
  returnCode : Int
  outputExists : Bool
  outputSizeBytes : Nat
deriving DecidableEq, Repr

/-- The result of `create_video`: the boolean it returns and how many
times the encoder was spawned. -/
structure VideoResult where
  ok : Bool
  encoderInvocations : Nat
deriving DecidableEq, Repr

/-- Model of `create_video` (lines 798-934): an empty input list is rejected
before the encoder is spawned (lines 799-801); otherwise success needs
exit code 0 AND an existing, non-empty output file (lines 913-930). -/
def create_video (image_paths : List String) (enc : EncoderOutcome) :
    VideoResult :=
  if image_paths.isEmpty then ⟨false, 0⟩
  else if enc.returnCode = 0 then
    if enc.outputExists && decide (0 < enc.outputSizeBytes) then ⟨true, 1⟩
    else ⟨false, 1⟩
  else ⟨false, 1⟩

/-- C7, main theorem.  `create_video` succeeds iff the input is nonempty,
the encoder exits 0, and the output file exists with nonzero size; the
empty input fails with zero encoder invocations, and any nonempty input
spawns the encoder exactly once. -/
theorem create_video_success_iff (image_paths : List String)
    (enc : EncoderOutcome) :
    ((create_video image_paths enc).ok = true ↔
      (image_paths ≠ [] ∧ enc.returnCode = 0 ∧ enc.outputExists = true ∧
        0 < enc.outputSizeBytes)) ∧
    (image_paths = [] → create_video image_paths enc = ⟨false, 0⟩) ∧
    (image_paths ≠ [] → (create_video image_paths enc).encoderInvocations = 1) := by
  obtain ⟨rc, ex, sz⟩ := enc
  unfold create_video
  cases image_paths with
  | nil => simp
  | cons p ps =>
    by_cases hrc : rc = 0 <;> cases ex <;> by_cases hsz : 0 < sz <;>
      simp [hrc, hsz]

theorem create_video_success_iff_witness :
    (create_video ["img1.jpg"] ⟨0, true, 5⟩).ok = true ∧
    create_video [] ⟨0, true, 5⟩ = ⟨false, 0⟩ :=
  ⟨((create_video_success_iff ["img1.jpg"] ⟨0, true, 5⟩).1).mpr
      ⟨by simp, rfl, rfl, by decide⟩,
    (create_video_success_iff [] ⟨0, true, 5⟩).2.1 rfl⟩

/-! ## C8: the upload retry loop -/

/-- The constant `MAX_RETRIES` (line 25). -/
def MAX_RETRIES : Nat := 3

/-- Tests that `needle` occurs as a contiguous substring of `hay`
(Python's `keyword in error_msg`). -/
def contains_chars (hay needle : List Char) : Bool :=
  (List.range (hay.length + 1)).any
    (fun i => ((hay.drop i).take needle.length) == needle)

/-- The transient-error classifier of line 1005:
`any(keyword in error_msg.lower() for keyword in
['ssl', 'eof', 'protocol', 'connection', 'timeout'])`. -/
def is_retryable_error (msg : String) : Bool :=
  (["ssl", "eof", "protocol", "connection", "timeout"] : List String).any
    (fun k => contains_chars (lower_str msg).data k.data)

/-- What one upload attempt (the `service.files().create(...).execute()`
of lines 974-979) does: succeed with a file id, succeed without one
(line 992 then raises), or raise with a message. -/
inductive AttemptOutcome where
  | ok
  | noId
  | err (msg : String)
deriving DecidableEq, Repr

/-- The message of the exception raised at line 992. -/
def no_id_msg : String := "Upload completed but no file ID returned"

/-- Outcome of `upload_video`: success or a raised exception, with the
number of attempts that were executed. -/
inductive UploadResult where
  | ok (attemptsMade : Nat)
  | raised (attemptsMade : Nat) (msg : String)
  | exhausted (attemptsMade : Nat)
deriving DecidableEq, Repr

/-- The retry loop of `upload_video` (lines 940-1020): on an exception,
retry only if the message is classified retryable AND this was not the
last attempt (`attempt < MAX_RETRIES - 1`); otherwise re-raise.
`exhausted` models the unreachable `raise` after the loop (line 1020). -/
def upload_loop (f : Nat -> AttemptOutcome) (attempt remaining : Nat) :
    UploadResult :=
  match remaining with
  | 0 => UploadResult.exhausted attempt
  | r + 1 =>
    match f attempt with
    | AttemptOutcome.ok => UploadResult.ok (attempt + 1)
    | AttemptOutcome.noId =>
      if is_retryable_error no_id_msg && decide (attempt < MAX_RETRIES - 1) then
        upload_loop f (attempt + 1) r
      else UploadResult.raised (attempt + 1) no_id_msg
    | AttemptOutcome.err msg =>
      if is_retryable_error msg && decide (attempt < MAX_RETRIES - 1) then
        upload_loop f (attempt + 1) r
      else UploadResult.raised (attempt + 1) msg

/-- Model of `upload_video` (lines 936-1020), given the outcome of each attempt. -/
def upload_video (f : Nat -> AttemptOutcome) : UploadResult :=
  upload_loop f 0 MAX_RETRIES

def attemptsOf : UploadResult -> Nat
  | UploadResult.ok n => n
  | UploadResult.raised n _ => n
  | UploadResult.exhausted n => n

/-- Number of attempts among the first `n` whose `create` call succeeded
(with or without a file id in the response). -/
def successful_creates (f : Nat -> AttemptOutcome) (n : Nat) : Nat :=
  ((List.range n).map f).count AttemptOutcome.ok

theorem upload_loop_attempts_le (f : Nat -> AttemptOutcome) :
    ∀ r a, attemptsOf (upload_loop f a r) ≤ a + r := by
  intro r
  induction r with
  | zero => intro a; simp [upload_loop, attemptsOf]
  | succ n ih =>
    intro a
    have h := ih (a + 1)
    show attemptsOf (upload_loop f a (n + 1)) ≤ a + (n + 1)
    rw [upload_loop]
    cases hfa : f a with
    | ok => simp [attemptsOf]
    | noId =>
      dsimp only
      by_cases hc :
          (is_retryable_error no_id_msg && decide (a < MAX_RETRIES - 1)) = true
      · rw [if_pos hc]; omega
      · rw [if_neg hc]; simp [attemptsOf]
    | err msg =>
      dsimp only
      by_cases hc :
          (is_retryable_error msg && decide (a < MAX_RETRIES - 1)) = true
      · rw [if_pos hc]; omega
      · rw [if_neg hc]; simp [attemptsOf]

/-- C8, main theorem.  The uploader makes at most 3 attempts; a
non-retryable error at any attempt is re-raised immediately (no further
attempts); two retryable failures followed by anything still end at the
3rd attempt; and with exactly two transient failures then a success, the
upload succeeds on attempt 3 having issued exactly one successful
`create`. -/
theorem upload_retry_policy :
    (∀ f, attemptsOf (upload_video f) ≤ MAX_RETRIES) ∧
    (∀ f m, f 0 = AttemptOutcome.err m → is_retryable_error m = false →
      upload_video f = UploadResult.raised 1 m) ∧
    (∀ f m0 m, f 0 = AttemptOutcome.err m0 → is_retryable_error m0 = true →
      f 1 = AttemptOutcome.err m → is_retryable_error m = false →
      upload_video f = UploadResult.raised 2 m) ∧
    (∀ f m0 m1 m2, f 0 = AttemptOutcome.err m0 → is_retryable_error m0 = true →
      f 1 = AttemptOutcome.err m1 → is_retryable_error m1 = true →
      f 2 = AttemptOutcome.err m2 →
      upload_video f = UploadResult.raised 3 m2) ∧
    (∀ f m0 m1, f 0 = AttemptOutcome.err m0 → is_retryable_error m0 = true →
      f 1 = AttemptOutcome.err m1 → is_retryable_error m1 = true →
      f 2 = AttemptOutcome.ok →
      upload_video f = UploadResult.ok 3 ∧ successful_creates f 3 = 1) := by
  refine ⟨?_, ?_, ?_, ?_, ?_⟩
  · intro f
    simpa using upload_loop_attempts_le f MAX_RETRIES 0
  · intro f m h0 hm
    simp [upload_video, upload_loop, MAX_RETRIES, h0, hm]
  · intro f m0 m h0 hm0 h1 hm
    simp [upload_video, upload_loop, MAX_RETRIES, h0, hm0, h1, hm]
  · intro f m0 m1 m2 h0 hm0 h1 hm1 h2
    simp [upload_video, upload_loop, MAX_RETRIES, h0, hm0, h1, hm1, h2]
  · intro f m0 m1 h0 hm0 h1 hm1 h2
    constructor
    · simp [upload_video, upload_loop, MAX_RETRIES, h0, hm0, h1, hm1, h2]
    · have hr : List.range 3 = [0, 1, 2] := rfl
      simp [successful_creates, hr, h0, h1, h2, List.count_cons]

/-- Two transient failures (an SSL error, then a connection reset)
followed by a success. -/
def c8_f : Nat -> AttemptOutcome := fun i =>
  if i = 0 then AttemptOutcome.err "ssl handshake failed"
  else if i = 1 then AttemptOutcome.err "Connection reset by peer"
  else AttemptOutcome.ok

theorem upload_retry_policy_witness :
    is_retryable_error "ssl handshake failed" = true ∧
    is_retryable_error "Connection reset by peer" = true ∧
    upload_video c8_f = UploadResult.ok 3 ∧ successful_creates c8_f 3 = 1 :=
  ⟨by decide, by decide,
    upload_retry_policy.2.2.2.2 c8_f "ssl handshake failed"
      "Connection reset by peer" rfl (by decide) rfl (by decide) rfl⟩

/-! ## C4: is the video preserved after a failed upload? -/

/-- The path `output_video = os.path.join(TEMP_DIR, camera_name +
"_timelapse_output.mp4")` (line 1177). -/
def output_video_path (tempDir camera : String) : String :=
  tempDir ++ "/" ++ camera ++ "_timelapse_output.mp4"

/-- Tests that `p` lies under directory `dir` (what `shutil.rmtree(dir)` removes). -/
def under_dir (dir p : String) : Bool :=
  (p.data.take (dir ++ "/").data.length) == (dir ++ "/").data

/-- The disk after `create_video` wrote the output file into `TEMP_DIR`
(line 1179 succeeded). -/
def main_disk_after_video (disk : List String) (tempDir camera : String)
    (videoCreated : Bool) : List String :=
  if videoCreated then disk ++ [output_video_path tempDir camera] else disk

/-- The disk when `main` finishes.  A failed upload is caught at lines
1211-1216 and only logged — no path is deleted there, whatever the
`UploadResult` was — but the `finally` block (line 1242) runs
`shutil.rmtree(TEMP_DIR, ignore_errors=True)`, removing everything under
`TEMP_DIR`. -/
def main_disk_at_exit (disk : List String) (tempDir camera : String)
    (videoCreated : Bool) (uploadOutcome : UploadResult) : List String :=
  (main_disk_after_video disk tempDir camera videoCreated).filter
    (fun p => !(under_dir tempDir p))

/-- C4: the code contradicts the claim (and its own log message at lines
1213-1214 promising a later manual re-upload).  After an upload that
exhausts all retries, the produced video — which lives under `TEMP_DIR`
(line 1177) — is deleted by the `finally` block, so it does NOT exist on
disk when the program finishes. -/
theorem video_file_deleted_on_exit :
    output_video_path "/tmp/tl" "cam1" ∈
      main_disk_after_video [] "/tmp/tl" "cam1" true ∧
    output_video_path "/tmp/tl" "cam1" ∉
      main_disk_at_exit [] "/tmp/tl" "cam1" true
        (UploadResult.raised 3 "ssl: all upload attempts failed") := by
  constructor <;> decide

/-! ## C9: helper lemmas for the two-run analysis -/

theorem core_fields_empty (P D : Nat) (L : List LocalFile)
    (rc : List RemoteObject) (t : Nat) :
    synchronize_images_core P D [] L rc t =
      ⟨0, [], [], L, rc, some (get_local_storage_info L)⟩ := rfl

theorem core_fields_ne (P D : Nat) (gd : List RemoteObject)
    (L : List LocalFile) (rc : List RemoteObject) (t : Nat) (h : gd ≠ []) :
    synchronize_images_core P D gd L rc t =
      ⟨sync_downloads P gd L, sync_local_victims P D gd L,
       (sync_gd_cleanup D gd rc).victims, sync_local_after P D gd L t,
       (sync_gd_cleanup D gd rc).store,
       some (get_local_storage_info (sync_local_after P D gd L t))⟩ := by
  have hgd : gd.isEmpty = false := by
    cases gd with
    | nil => exact absurd rfl h
    | cons a l => rfl
  simp [synchronize_images_core, hgd]

theorem downloads_selected_nil (P n : Nat) :
    downloads_selected P [] n = 0 := rfl

/-- Filtering out an empty victim list is the identity. -/
theorem filter_no_victims (l : List LocalFile) :
    l.filter (fun f =>
      !(([] : List LocalFile).any (fun v => v.name == f.name))) = l := by
  simp

/-- Removing, by key, the `vict` part of a partition of `l` (all keys
distinct) leaves exactly the `kept` part, up to permutation. -/
theorem filter_removed_perm {α κ : Type} [DecidableEq κ] (key : α → κ)
    (l vict kept : List α)
    (hperm : List.Perm l (vict ++ kept))
    (hnodup : ((vict ++ kept).map key).Nodup) :
    List.Perm (l.filter (fun x => !(vict.any (fun v => key v == key x)))) kept := by
  have h1 := hperm.filter (fun x => !(vict.any (fun v => key v == key x)))
  rw [List.filter_append] at h1
  have hv : vict.filter
      (fun x => !(vict.any (fun v => key v == key x))) = [] := by
    rw [List.filter_eq_nil_iff]
    intro a ha
    have hany : vict.any (fun v => key v == key a) = true :=
      List.any_eq_true.mpr ⟨a, ha, by simp⟩
    simp [hany]
  have hk : kept.filter
      (fun x => !(vict.any (fun v => key v == key x))) = kept := by
    rw [List.filter_eq_self]
    intro a ha
    have hany : vict.any (fun v => key v == key a) = false := by
      rw [List.any_eq_false]
      intro v hvmem hkey
      have hkeq : key v = key a := by simpa using hkey
      rw [List.map_append, List.nodup_append] at hnodup
      refine hnodup.2.2 (List.mem_map.mpr ⟨v, hvmem, rfl⟩) ?_
      rw [hkeq]
      exact List.mem_map.mpr ⟨a, ha, rfl⟩
    simp [hany]
  rw [hv, hk] at h1
  exact h1

/-- When the downloaded names are fresh and pairwise distinct, the batch
download appends one file per object. -/
theorem download_new_images_append (t : Nat) :
    ∀ (objs : List RemoteObject) (s : List LocalFile),
      (∀ o ∈ objs, ∀ f ∈ s, f.name ≠ o.name) →
      (objs.map (fun o => o.name)).Nodup →
      download_new_images s objs t =
        s ++ objs.map (fun o => downloaded_file o t) := by
  intro objs
  induction objs with
  | nil => intro s _ _; simp [download_new_images]
  | cons o os ih =>
    intro s hdisj hnodup
    have hany : (s.any (fun f => f.name == o.name)) = false := by
      rw [List.any_eq_false]
      intro f hf hbeq
      exact hdisj o (List.mem_cons_self o os) f hf (by simpa using hbeq)
    have hwrite : download_write s o t = s ++ [downloaded_file o t] := by
      unfold download_write
      rw [if_neg]
      simp [hany]
    have hstep : download_new_images s (o :: os) t =
        download_new_images (s ++ [downloaded_file o t]) os t := by
      simp only [download_new_images, List.foldl_cons, hwrite]
    rw [List.map_cons] at hnodup
    rw [hstep, ih (s ++ [downloaded_file o t]) ?_ ?_]
    · simp
    · intro o' ho' f hf
      rcases List.mem_append.mp hf with hf | hf
      · exact hdisj o' (List.mem_cons_of_mem o ho') f hf
      · have hfo : f = downloaded_file o t := by simpa using hf
        subst hfo
        show o.name ≠ o'.name
        intro hcontr
        have hmem : o'.name ∈ os.map (fun o => o.name) :=
          List.mem_map.mpr ⟨o', ho', rfl⟩
        rw [← hcontr] at hmem
        exact (List.nodup_cons.mp hnodup).1 hmem
    · exact (List.nodup_cons.mp hnodup).2

/-- The remote store emerging from step 6 holds at most `D` matching
objects (given globally unique object ids). -/
theorem sync_gd_after_len_le (R : List RemoteObject) (D : Nat)
    (hGo : ((listRemote R).map (fun o => o.oid)).Nodup) :
    (listRemote (sync_gd_cleanup D (listRemote R) R).store).length ≤ D := by
  have hperm : List.Perm (gd_all_images R) (listRemote R) :=
    List.perm_insertionSort gd_mtime_le (listRemote R)
  have hlen : (gd_all_images R).length = (listRemote R).length :=
    hperm.length_eq
  unfold sync_gd_cleanup
  split
  case isFalse hnlt =>
    show (listRemote R).length ≤ D
    omega
  case isTrue hlt =>
    unfold cleanup_google_drive_overflow
    split
    case isTrue hle => omega
    case isFalse hnle =>
      show (listRemote (R.filter _)).length ≤ D
      unfold listRemote
      rw [List.filter_comm]
      have hpart : List.Perm (listRemote R)
          (gd_victims R D ++
            (gd_all_images R).drop ((gd_all_images R).length - D)) := by
        unfold gd_victims
        rw [List.take_append_drop]
        exact hperm.symm
      have hnodup2 : ((gd_victims R D ++
          (gd_all_images R).drop ((gd_all_images R).length - D)).map
            (fun o => o.oid)).Nodup := by
        unfold gd_victims
        rw [List.take_append_drop]
        exact ((hperm.map (fun o => o.oid)).nodup_iff).mpr hGo
      have hrem := filter_removed_perm (fun o => o.oid) (listRemote R)
        (gd_victims R D)
        ((gd_all_images R).drop ((gd_all_images R).length - D))
        hpart hnodup2
      have hlen2 := hrem.length_eq
      unfold listRemote at hlen2
      rw [hlen2, List.length_drop]
      omega

/-- Objects surviving step 6 were in the pre-run folder content. -/
theorem sync_gd_after_sub (R : List RemoteObject) (D : Nat) :
    ∀ o ∈ listRemote (sync_gd_cleanup D (listRemote R) R).store,
      o ∈ listRemote R := by
  intro o ho
  unfold sync_gd_cleanup at ho
  split at ho
  case isFalse h => exact ho
  case isTrue h =>
    unfold cleanup_google_drive_overflow at ho
    split at ho
    case isTrue hle => exact ho
    case isFalse hnle =>
      unfold listRemote at ho ⊢
      rw [List.filter_comm] at ho
      exact (List.filter_sublist _).mem ho

theorem getInfo_count_eq (l : List LocalFile) :
    (get_local_storage_info l).count =
      (l.filter (fun f => isImageFile f.name)).length := rfl

theorem cleanup_old_images_victims (info : LocalStorageInfo) (D : Nat)
    (h : ¬ info.count ≤ D) :
    (cleanup_old_images info D).2 = info.files.take (info.count - D) := by
  simp only [cleanup_old_images, if_neg h]

theorem download_new_images_nil (s : List LocalFile) (t : Nat) :
    download_new_images s [] t = s := rfl

theorem sync_downloads_zero_of_ge (P : Nat) (gd : List RemoteObject)
    (L : List LocalFile) (h : P ≤ (get_local_storage_info L).count) :
    sync_downloads P gd L = 0 :=
  downloads_selected_zero_of_ge P _ _ h

theorem sync_downloads_of_new_nil (P : Nat) (gd : List RemoteObject)
    (L : List LocalFile) (h : sync_new gd L = []) :
    sync_downloads P gd L = 0 := by
  unfold sync_downloads
  rw [h]
  rfl

theorem downloads_selected_pos_eq (P n : Nat) (new_images : List RemoteObject)
    (hne : new_images ≠ []) (hlt : n < P) :
    downloads_selected P new_images n = min new_images.length (P - n) := by
  have hie : new_images.isEmpty = false := by
    cases new_images with
    | nil => exact absurd rfl hne
    | cons a l => rfl
  have hpos : (0 : Int) < (P : Int) - (n : Int) := by omega
  have htn : ((P : Int) - (n : Int)).toNat = P - n := by omega
  simp only [downloads_selected, hie, Bool.false_eq_true, if_false,
    if_pos hpos, htn]

theorem sync_local_victims_nil (P D : Nat) (gd : List RemoteObject)
    (L : List LocalFile)
    (h : ¬ D < (get_local_storage_info L).count + sync_downloads P gd L) :
    sync_local_victims P D gd L = [] := by
  unfold sync_local_victims
  rw [if_neg h]

theorem sync_local_victims_pos (P D : Nat) (gd : List RemoteObject)
    (L : List LocalFile)
    (h : D < (get_local_storage_info L).count + sync_downloads P gd L)
    (h2 : ¬ (get_local_storage_info L).count ≤ D) :
    sync_local_victims P D gd L =
      (get_local_storage_info L).files.take
        ((get_local_storage_info L).count - D) := by
  unfold sync_local_victims
  rw [if_pos h]
  exact cleanup_old_images_victims _ _ h2

theorem sync_local_after_no_victims (P D : Nat) (gd : List RemoteObject)
    (L : List LocalFile) (t : Nat) (h : sync_local_victims P D gd L = []) :
    sync_local_after P D gd L t =
      download_new_images L ((sync_new gd L).take (sync_downloads P gd L)) t := by
  unfold sync_local_after
  rw [h]
  exact filter_no_victims _

/-- An empty `new_images` computation means every listed object already
has a local base-name match. -/
theorem identify_eq_nil (gd : List RemoteObject) (info : LocalStorageInfo)
    (h : ∀ o ∈ gd,
      info.files.any (fun f => base_name f.name == base_name o.name) = true) :
    identify_new_images gd info = [] := by
  rw [identify_new_images, List.filter_eq_nil_iff]
  intro o ho
  simp [h o ho]

/-- Local cache size after an eviction pass that removes the oldest
`count - D` snapshot entries: exactly `D` images remain. -/
theorem local_eviction_count (L : List LocalFile) (D : Nat)
    (hLn : (L.map (fun f => f.name)).Nodup)
    (hD : D < (get_local_storage_info L).count) :
    (get_local_storage_info (L.filter (fun f =>
      !(((get_local_storage_info L).files.take
          ((get_local_storage_info L).count - D)).any
        (fun v => v.name == f.name))))).count = D := by
  have hFperm := getInfo_files_perm L
  have hFlen := getInfo_files_length L
  have hFnames : ((L.filter (fun f => isImageFile f.name)).map
      (fun f => f.name)).Nodup :=
    hLn.sublist ((List.filter_sublist L).map (fun f => f.name))
  have hfilesN : ((get_local_storage_info L).files.map
      (fun f => f.name)).Nodup :=
    ((hFperm.map (fun f => f.name)).nodup_iff).mpr hFnames
  rw [getInfo_count_eq, List.filter_comm]
  have hpart : List.Perm (L.filter (fun f => isImageFile f.name))
      ((get_local_storage_info L).files.take
          ((get_local_storage_info L).count - D) ++
        (get_local_storage_info L).files.drop
          ((get_local_storage_info L).count - D)) := by
    rw [List.take_append_drop]
    exact hFperm.symm
  have hnd : (((get_local_storage_info L).files.take
          ((get_local_storage_info L).count - D) ++
        (get_local_storage_info L).files.drop
          ((get_local_storage_info L).count - D)).map
      (fun f => f.name)).Nodup := by
    rw [List.take_append_drop]
    exact hfilesN
  have h := filter_removed_perm (fun f => f.name)
    (L.filter (fun f => isImageFile f.name)) _ _ hpart hnd
  rw [h.length_eq, List.length_drop]
  omega

/-- Appending freshly downloaded image files adds exactly their number to
the snapshot count. -/
theorem local_download_count (L : List LocalFile) (objs : List RemoteObject)
    (t : Nat) (him : ∀ o ∈ objs, isImageFile o.name = true) :
    (get_local_storage_info
      (L ++ objs.map (fun o => downloaded_file o t))).count =
      (get_local_storage_info L).count + objs.length := by
  rw [getInfo_count_eq, List.filter_append]
  have hkeep : (objs.map (fun o => downloaded_file o t)).filter
      (fun f => isImageFile f.name) = objs.map (fun o => downloaded_file o t) := by
    rw [List.filter_eq_self]
    intro x hx
    obtain ⟨o, ho, rfl⟩ := List.mem_map.mp hx
    exact him o ho
  rw [hkeep, List.length_append, List.length_map, getInfo_count_eq]

theorem identify_nil_all_matched (gd : List RemoteObject)
    (info : LocalStorageInfo) (h : identify_new_images gd info = []) :
    ∀ o ∈ gd,
      info.files.any (fun f => base_name f.name == base_name o.name) = true := by
  intro o ho
  rw [identify_new_images] at h
  have := List.filter_eq_nil_iff.mp h o ho
  simpa using this

/-- C9, amended.  Run the Reconciler twice against the same folder, with
no remote changes between or during the runs, with every download and
delete of the first run succeeding, with `processingCap ≤ downloadCap`
(the spec's standing assumption), and with the listed remote objects
having pairwise-distinct ids and names and recognized image extensions:
the second run performs zero downloads and zero evictions on both sides. -/
theorem reconciler_idempotent_amended (P D t1 t2 : Nat) (L : List LocalFile)
    (R : List RemoteObject)
    (hPD : P ≤ D)
    (hLn : (L.map (fun f => f.name)).Nodup)
    (hGn : ((listRemote R).map (fun o => o.name)).Nodup)
    (hGo : ((listRemote R).map (fun o => o.oid)).Nodup)
    (hGe : ∀ o ∈ listRemote R, isImageFile o.name = true) :
    (runSync P D (runSync P D L R t1).localAfter
        (runSync P D L R t1).remoteAfter t2).downloads = 0 ∧
    (runSync P D (runSync P D L R t1).localAfter
        (runSync P D L R t1).remoteAfter t2).localEvicted = [] ∧
    (runSync P D (runSync P D L R t1).localAfter
        (runSync P D L R t1).remoteAfter t2).remoteEvicted = [] := by
  by_cases hGnil : listRemote R = []
  · have h1 : runSync P D L R t1 =
        ⟨0, [], [], L, R, some (get_local_storage_info L)⟩ := by
      unfold runSync
      rw [gd_single, hGnil]
      exact core_fields_empty P D L R t1
    have h2 : runSync P D L R t2 =
        ⟨0, [], [], L, R, some (get_local_storage_info L)⟩ := by
      unfold runSync
      rw [gd_single, hGnil]
      exact core_fields_empty P D L R t2
    rw [h1]
    dsimp only
    rw [h2]
    exact ⟨rfl, rfl, rfl⟩
  · have hrun1 : runSync P D L R t1 =
        ⟨sync_downloads P (listRemote R) L,
         sync_local_victims P D (listRemote R) L,
         (sync_gd_cleanup D (listRemote R) R).victims,
         sync_local_after P D (listRemote R) L t1,
         (sync_gd_cleanup D (listRemote R) R).store,
         some (get_local_storage_info
           (sync_local_after P D (listRemote R) L t1))⟩ := by
      unfold runSync
      rw [gd_single]
      exact core_fields_ne P D (listRemote R) L R t1 hGnil
    rw [hrun1]
    dsimp only
    set G := listRemote R with hG
    set L2 := sync_local_after P D G L t1 with hL2
    set R2 := (sync_gd_cleanup D G R).store with hR2
    have hR2len : (listRemote R2).length ≤ D := by
      rw [hR2, hG]
      exact sync_gd_after_len_le R D hGo
    have hR2sub : ∀ o ∈ listRemote R2, o ∈ G := by
      rw [hR2, hG]
      exact sync_gd_after_sub R D
    have hkey : (get_local_storage_info L2).count ≤ D ∧
        sync_downloads P (listRemote R2) L2 = 0 := by
      by_cases hnP : P ≤ (get_local_storage_info L).count
      · have hd1 : sync_downloads P G L = 0 :=
          sync_downloads_zero_of_ge P G L hnP
        by_cases hDn : D < (get_local_storage_info L).count
        · have hvict : sync_local_victims P D G L =
              (get_local_storage_info L).files.take
                ((get_local_storage_info L).count - D) := by
            apply sync_local_victims_pos
            · omega
            · omega
          have hL2eq : L2 = L.filter (fun f =>
              !(((get_local_storage_info L).files.take
                  ((get_local_storage_info L).count - D)).any
                (fun v => v.name == f.name))) := by
            rw [hL2]
            unfold sync_local_after
            rw [hd1, hvict, List.take_zero, download_new_images_nil]
          have hcnt : (get_local_storage_info L2).count = D := by
            rw [hL2eq]
            exact local_eviction_count L D hLn hDn
          constructor
          · omega
          · exact sync_downloads_zero_of_ge _ _ _ (by omega)
        · have hvict : sync_local_victims P D G L = [] := by
            apply sync_local_victims_nil
            omega
          have hL2eq : L2 = L := by
            rw [hL2, sync_local_after_no_victims P D G L t1 hvict, hd1,
              List.take_zero, download_new_images_nil]
          rw [hL2eq]
          exact ⟨by omega, sync_downloads_zero_of_ge _ _ _ hnP⟩
      · have hnlt : (get_local_storage_info L).count < P := by omega
        by_cases hnew : sync_new G L = []
        · have hd1 : sync_downloads P G L = 0 :=
            sync_downloads_of_new_nil P G L hnew
          have hvict : sync_local_victims P D G L = [] := by
            apply sync_local_victims_nil
            omega
          have hL2eq : L2 = L := by
            rw [hL2, sync_local_after_no_victims P D G L t1 hvict, hd1,
              List.take_zero, download_new_images_nil]
          have hnew2 : identify_new_images G (get_local_storage_info L) = [] := by
            unfold sync_new at hnew
            exact hnew
          refine ⟨by rw [hL2eq]; omega, ?_⟩
          apply sync_downloads_of_new_nil
          unfold sync_new
          apply identify_eq_nil
          intro o ho
          rw [hL2eq]
          exact identify_nil_all_matched G _ hnew2 o (hR2sub o ho)
        · have hd1 : sync_downloads P G L =
              min (sync_new G L).length
                (P - (get_local_storage_info L).count) := by
            unfold sync_downloads
            exact downloads_selected_pos_eq P _ _ hnew hnlt
          have hdle : sync_downloads P G L ≤
              P - (get_local_storage_info L).count := by
            rw [hd1]; omega
          have hdle2 : sync_downloads P G L ≤ (sync_new G L).length := by
            rw [hd1]; omega
          have hvict : sync_local_victims P D G L = [] := by
            apply sync_local_victims_nil
            omega
          have hnewsub : (sync_new G L).Sublist G := by
            unfold sync_new identify_new_images
            exact List.filter_sublist G
          have hlimsubnew :
              ((sync_new G L).take (sync_downloads P G L)).Sublist
                (sync_new G L) := List.take_sublist _ _
          have hlimsubG := hlimsubnew.trans hnewsub
          have hlimnames :
              (((sync_new G L).take (sync_downloads P G L)).map
                (fun o => o.name)).Nodup :=
            hGn.sublist (hlimsubG.map (fun o => o.name))
          have hdisj : ∀ o ∈ (sync_new G L).take (sync_downloads P G L),
              ∀ f ∈ L, f.name ≠ o.name := by
            intro o ho f hf heq
            have honew : o ∈ sync_new G L := hlimsubnew.mem ho
            have hoG : o ∈ G := hnewsub.mem honew
            have hmem2 := honew
            unfold sync_new identify_new_images at hmem2
            have hbase' := (List.mem_filter.mp hmem2).2
            have hbase : (get_local_storage_info L).files.any
                (fun f => base_name f.name == base_name o.name) = false := by
              simpa using hbase'
            have hfim : isImageFile f.name = true := by
              rw [heq]
              exact hGe o hoG
            have hfF : f ∈ L.filter (fun f => isImageFile f.name) :=
              List.mem_filter.mpr ⟨hf, hfim⟩
            have hfFiles : f ∈ (get_local_storage_info L).files :=
              ((getInfo_files_perm L).mem_iff).mpr hfF
            have hne := List.any_eq_false.mp hbase f hfFiles
            apply hne
            rw [heq]
            simp
          have hDL : download_new_images L
              ((sync_new G L).take (sync_downloads P G L)) t1 =
              L ++ ((sync_new G L).take (sync_downloads P G L)).map
                (fun o => downloaded_file o t1) :=
            download_new_images_append t1 _ L hdisj hlimnames
          have hL2eq : L2 =
              L ++ ((sync_new G L).take (sync_downloads P G L)).map
                (fun o => downloaded_file o t1) := by
            rw [hL2, sync_local_after_no_victims P D G L t1 hvict, hDL]
          have hlimim : ∀ o ∈ (sync_new G L).take (sync_downloads P G L),
              isImageFile o.name = true :=
            fun o ho => hGe o (hlimsubG.mem ho)
          have hlimlen : ((sync_new G L).take
              (sync_downloads P G L)).length = sync_downloads P G L := by
            rw [List.length_take]
            omega
          have hcnt2 : (get_local_storage_info L2).count =
              (get_local_storage_info L).count + sync_downloads P G L := by
            rw [hL2eq, local_download_count L _ t1 hlimim, hlimlen]
          refine ⟨by omega, ?_⟩
          by_cases hfull :
              P - (get_local_storage_info L).count ≤ (sync_new G L).length
          · have hdexact : sync_downloads P G L =
                P - (get_local_storage_info L).count := by
              rw [hd1]; omega
            exact sync_downloads_zero_of_ge _ _ _ (by omega)
          · have hdfull : sync_downloads P G L = (sync_new G L).length := by
              rw [hd1]; omega
            have hlimfull : (sync_new G L).take (sync_downloads P G L) =
                sync_new G L := by
              rw [hdfull]
              exact List.take_length _
            apply sync_downloads_of_new_nil
            unfold sync_new
            apply identify_eq_nil
            intro o ho
            have hoG : o ∈ G := hR2sub o ho
            have hperm2 : List.Perm (get_local_storage_info L2).files
                (L.filter (fun f => isImageFile f.name) ++
                  (sync_new G L).map (fun o => downloaded_file o t1)) := by
              rw [hL2eq, hlimfull]
              have h0 := getInfo_files_perm
                (L ++ (sync_new G L).map (fun o => downloaded_file o t1))
              rw [List.filter_append] at h0
              have hkeep : ((sync_new G L).map
                  (fun o => downloaded_file o t1)).filter
                  (fun f => isImageFile f.name) =
                  (sync_new G L).map (fun o => downloaded_file o t1) := by
                rw [List.filter_eq_self]
                intro x hx
                obtain ⟨o2, ho2, rfl⟩ := List.mem_map.mp hx
                exact hGe o2 (hnewsub.mem ho2)
              rw [hkeep] at h0
              exact h0
            by_cases hmatch : (get_local_storage_info L).files.any
                (fun f => base_name f.name == base_name o.name) = true
            · obtain ⟨f, hfmem, hfeq⟩ := List.any_eq_true.mp hmatch
              apply List.any_eq_true.mpr
              refine ⟨f, ?_, hfeq⟩
              apply hperm2.mem_iff.mpr
              apply List.mem_append_left
              exact ((getInfo_files_perm L).mem_iff).mp hfmem
            · have hm2 : (get_local_storage_info L).files.any
                  (fun f => base_name f.name == base_name o.name) = false := by
                cases hx : (get_local_storage_info L).files.any
                    (fun f => base_name f.name == base_name o.name)
                · rfl
                · exact absurd hx hmatch
              have honew : o ∈ sync_new G L := by
                unfold sync_new identify_new_images
                apply List.mem_filter.mpr
                refine ⟨hoG, ?_⟩
                simp [hm2]
              apply List.any_eq_true.mpr
              refine ⟨downloaded_file o t1, ?_, by simp [downloaded_file]⟩
              apply hperm2.mem_iff.mpr
              apply List.mem_append_right
              exact List.mem_map.mpr ⟨o, honew, rfl⟩
    obtain ⟨hcount2, hd2⟩ := hkey
    by_cases hG2nil : listRemote R2 = []
    · have h2 : runSync P D L2 R2 t2 =
          ⟨0, [], [], L2, R2, some (get_local_storage_info L2)⟩ := by
        unfold runSync
        rw [gd_single, hG2nil]
        exact core_fields_empty P D L2 R2 t2
      rw [h2]
      exact ⟨rfl, rfl, rfl⟩
    · have h2 : runSync P D L2 R2 t2 =
          ⟨sync_downloads P (listRemote R2) L2,
           sync_local_victims P D (listRemote R2) L2,
           (sync_gd_cleanup D (listRemote R2) R2).victims,
           sync_local_after P D (listRemote R2) L2 t2,
           (sync_gd_cleanup D (listRemote R2) R2).store,
           some (get_local_storage_info
             (sync_local_after P D (listRemote R2) L2 t2))⟩ := by
        unfold runSync
        rw [gd_single]
        exact core_fields_ne P D (listRemote R2) L2 R2 t2 hG2nil
      rw [h2]
      refine ⟨hd2, ?_, ?_⟩
      · show sync_local_victims P D (listRemote R2) L2 = []
        apply sync_local_victims_nil
        omega
      · show (sync_gd_cleanup D (listRemote R2) R2).victims = []
        unfold sync_gd_cleanup
        rw [if_neg (show ¬ D < (listRemote R2).length by omega)]

/-- Two remote objects sharing the full name `x.jpg` (Drive permits
duplicate names) plus a third object `y.jpg`. -/
def c9_x1 : RemoteObject := ⟨1, "x.jpg", "image/jpeg", false, 1, 1, 10⟩

def c9_x2 : RemoteObject := ⟨2, "x.jpg", "image/jpeg", false, 2, 2, 10⟩

def c9_y : RemoteObject := ⟨3, "y.jpg", "image/jpeg", false, 3, 3, 10⟩

def c9_R : List RemoteObject := [c9_x1, c9_x2, c9_y]

/-- C9, counterexample.  `processingCap = 2`, `downloadCap = 10`, empty
cache, remote `[x.jpg, x.jpg, y.jpg]`.  Run 1 downloads the two `x.jpg`
objects — the second overwrites the first on disk — so the cache ends
with ONE file, below the processing cap, and `y.jpg` was never selected.
Run 2 (same folder, no remote changes, every run-1 download succeeded)
therefore still finds a new object and performs 1 download, not 0. -/
theorem second_run_downloads_cex :
    (runSync 2 10 (runSync 2 10 [] c9_R 100).localAfter
        (runSync 2 10 [] c9_R 100).remoteAfter 200).downloads = 1 := by
  decide

def c9w_L : List LocalFile := [⟨"z.jpg", 1, 1⟩]

def c9w_R : List RemoteObject :=
  [⟨1, "x.jpg", "image/jpeg", false, 5, 5, 1⟩,
   ⟨2, "y.jpg", "image/jpeg", false, 6, 6, 1⟩]

theorem reconciler_idempotent_amended_witness :
    ((1 : Nat) ≤ 2 ∧
      ((c9w_L.map (fun f => f.name)).Nodup ∧
        ((listRemote c9w_R).map (fun o => o.name)).Nodup ∧
        ((listRemote c9w_R).map (fun o => o.oid)).Nodup ∧
        ∀ o ∈ listRemote c9w_R, isImageFile o.name = true)) ∧
    ((runSync 1 2 (runSync 1 2 c9w_L c9w_R 10).localAfter
        (runSync 1 2 c9w_L c9w_R 10).remoteAfter 20).downloads = 0 ∧
     (runSync 1 2 (runSync 1 2 c9w_L c9w_R 10).localAfter
        (runSync 1 2 c9w_L c9w_R 10).remoteAfter 20).localEvicted = [] ∧
     (runSync 1 2 (runSync 1 2 c9w_L c9w_R 10).localAfter
        (runSync 1 2 c9w_L c9w_R 10).remoteAfter 20).remoteEvicted = []) :=
  ⟨⟨by decide, by decide, by decide, by decide, by decide⟩,
    reconciler_idempotent_amended 1 2 10 20 c9w_L c9w_R (by decide)
      (by decide) (by decide) (by decide) (by decide)⟩

end Timelapse
